import Mathlib

/-
Verification of the middleware chain-execution engine in
src/composer/composeTimed.ts (the Chain Runner / Step Scheduler) and the
handlers it drives from src/middlewares/registry.ts.

Shallow embedding conventions:
* JavaScript runtime values that can flow through `next(err)`, response
  bodies and `res.locals` are modelled by `JSVal`.  `message` fields of
  Error-like values are modelled as object fields.
* The shared response object (createResponse, composeTimed.ts lines 62-92)
  is the record `Res`; its mutator methods are the constructors of `ResAct`
  interpreted by `applyResAct`.
* A handler invocation is described by `HandlerSpec`: the list of calls it
  performs synchronously (`sync`), what it returns (`ret`: a plain value, a
  promise whose body runs as one burst `afterMs` later, or a promise that
  never settles), and mutations scheduled with setTimeout that fire after
  the whole run has returned (`deferred`).
* The per-step scheduling logic of runChain (composeTimed.ts lines 121-170:
  the setTimeout timer, the `next` closure, the try/catch around the handler,
  the awaited returned promise and the 10 ms polling setInterval) is the
  function `runStep`.  Virtual time is in milliseconds; the step's local
  `status`/`errorMsg` variables are read by the runner only after the outer
  promise has resolved and the current synchronous burst has finished, so the
  recorded outcome is the state at the end of the burst in which resolve()
  was first called.
* The request object built from the payload is not modelled: no claim
  mentions it and no modelled handler reads it (the logger's log line, which
  depends on the request and the clock, is a parameter).
* `deferred` mutations model callbacks that fire after runChain has resolved
  (as in the repository's late-mutation test, where the run finishes in
  under a millisecond and the callback fires at 20 ms).  In JavaScript the
  returned `final.headers` / `final.cookies` / `final.locals` alias the
  fields of the shared response object, while `final.statusCode`,
  `final.responded` and `final.body` are copied by value; `sharedResAfter`
  is the shared response after those late callbacks have fired.
-/

/-- A JavaScript runtime value, as far as the engine inspects one. -/
inductive JSVal where
  | undefined
  | jsnull
  | bool (b : Bool)
  | num (n : Int)
  | str (s : String)
  | arr (elems : List JSVal)
  | obj (fields : List (String × JSVal))

/-- JavaScript truthiness of a `JSVal` (objects and arrays are always truthy,
`0`, `''`, `false`, `null` and `undefined` are falsy). -/
def truthy : JSVal → Bool
  | .undefined => false
  | .jsnull => false
  | .bool b => b
  | .num n => n != 0
  | .str s => s != ""
  | .arr _ => true
  | .obj _ => true

/-- Look a key up in a JavaScript-object-like association list. -/
def getKV {α : Type} : List (String × α) → String → Option α
  | [], _ => none
  | (k, v) :: rest, key => if k = key then some v else getKV rest key

/-- Assign a key in a JavaScript-object-like association list, keeping the
insertion order of keys as a JS object does. -/
def setKV {α : Type} : List (String × α) → String → α → List (String × α)
  | [], key, v => [(key, v)]
  | (k, v') :: rest, key, v =>
      if k = key then (key, v) :: rest else (k, v') :: setKV rest key v

/-- The JavaScript expression `x?.message`: the `message` property when `x`
is an object, `undefined` otherwise. -/
def jsMessage : JSVal → JSVal
  | .obj fields => (getKV fields "message").getD .undefined
  | _ => .undefined

/-- getErrorMessage (composeTimed.ts lines 94-96):
`typeof err === 'string' ? err : err?.message || 'Error'`. -/
def getErrorMessage (err : JSVal) : JSVal :=
  match err with
  | .str s => .str s
  | _ => if truthy (jsMessage err) then jsMessage err else .str "Error"

/-- A cookie record pushed by `res.cookie` (composeTimed.ts lines 13-17). -/
structure Cookie where
  name : String
  value : String
  options : Option (List (String × JSVal))

/-- The shared synthetic response object (composeTimed.ts lines 9-25): the
data fields of the object built by createResponse. -/
structure Res where
  locals : List (String × JSVal)
  statusCode : Nat
  headers : List (String × String)
  cookies : List Cookie
  responded : Bool
  responseBody : Option JSVal

/-- The response built by createResponse (composeTimed.ts lines 62-92)
before any handler has touched it. -/
def createResponse : Res :=
  { locals := []
    statusCode := 200
    headers := []
    cookies := []
    responded := false
    responseBody := none }

/-- One call to a mutator method of the shared response.  The first six
constructors are the methods of createResponse (composeTimed.ts lines
70-90); `appendLog` is the single locals mutation of the registry's logger
middleware (registry.ts lines 24-28):
`res.locals.logs = [...(Array.isArray(logs) ? logs : []), line]`. -/
inductive ResAct where
  | status (code : Nat)
  | json (data : JSVal)
  | send (data : JSVal)
  | setHeader (name value : String)
  | cookie (name value : String) (options : Option (List (String × JSVal)))
  | setLocal (key : String) (v : JSVal)
  | appendLog (line : String)

/-- `s.toLowerCase()` on a header name.  (Stated over the character list so
that it reduces definitionally, which `String.toLower` does not.) -/
def lowerStr (s : String) : String := ⟨s.data.map Char.toLower⟩

/-- Interpret one mutator call on the response, following createResponse:
`status` sets the code, `json` stores the body, sets `responded` and the
content-type header, `send` stores the body and sets `responded`,
`setHeader` lowercases the name, `cookie` pushes a record. -/
def applyResAct (res : Res) : ResAct → Res
  | .status code => { res with statusCode := code }
  | .json data =>
      { res with
        responseBody := some data
        responded := true
        headers := setKV res.headers (lowerStr "content-type") "application/json" }
  | .send data => { res with responseBody := some data, responded := true }
  | .setHeader name value =>
      { res with headers := setKV res.headers (lowerStr name) value }
  | .cookie name value options =>
      { res with cookies := res.cookies ++ [⟨name, value, options⟩] }
  | .setLocal key v => { res with locals := setKV res.locals key v }
  | .appendLog line =>
      let prev := match getKV res.locals "logs" with
        | some (.arr es) => es
        | _ => []
      { res with locals := setKV res.locals "logs" (.arr (prev ++ [.str line])) }

/-- Apply a list of mutator calls in order. -/
def applyResActs (res : Res) (acts : List ResAct) : Res :=
  acts.foldl applyResAct res

/-- A per-step timeline status (composeTimed.ts line 35). -/
inductive Status where
  | ok
  | error
  | shortCircuit
  | timeout
deriving DecidableEq, Repr

/-- One call a handler makes during a synchronous burst: a response mutator
call, a call to its continuation `next`, or a thrown value (which ends the
burst). -/
inductive SyncAct where
  | act (a : ResAct)
  | callNext (err : JSVal)
  | throwJS (e : JSVal)

/-- What the handler returns: a plain value, a promise that settles after
`afterMs` milliseconds once its body has run the given burst (a `throwJS`
in the burst makes the promise reject with that value), or a promise that
never settles. -/
inductive HandlerRet where
  | value
  | promise (afterMs : Nat) (acts : List SyncAct)
  | pending

/-- The observable behaviour of one middleware handler invocation. -/
structure HandlerSpec where
  sync : List SyncAct
  ret : HandlerRet
  deferred : List ResAct

/-- The mutable state the scheduler closes over for one step
(composeTimed.ts lines 123-128): the `status` and `errorMsg` locals, the
`nextCalled` flag and the shared response. -/
structure StepState where
  status : Status
  errorMsg : Option JSVal
  nextCalled : Bool
  res : Res

/-- Run one synchronous burst of handler calls against the step state.
`next` (composeTimed.ts lines 136-145) sets `nextCalled`, records an error
status and message when its argument is truthy, and resolves; it has no
single-use guard, so every call runs its body again.  A thrown value stops
the burst and is returned. -/
def runBurst : StepState → List SyncAct → StepState × Option JSVal
  | st, [] => (st, none)
  | st, SyncAct.act a :: rest =>
      runBurst { st with res := applyResAct st.res a } rest
  | st, SyncAct.callNext err :: rest =>
      let st := { st with nextCalled := true }
      let st := if truthy err then
          { st with status := .error, errorMsg := some (getErrorMessage err) }
        else st
      runBurst st rest
  | st, SyncAct.throwJS e :: _ => (st, some e)

/-- The response mutations of a burst that runs after the step has already
been recorded: they write straight through to the shared response (there is
no isolation guard), while `next` calls and thrown values only touch the
step's stale locals.  Mutations after a throw do not run. -/
def lateWrites : List SyncAct → List ResAct
  | [] => []
  | SyncAct.act a :: rest => a :: lateWrites rest
  | SyncAct.callNext _ :: rest => lateWrites rest
  | SyncAct.throwJS _ :: _ => []

/-- CHECK_INTERVAL_MS (composeTimed.ts line 98): the polling period of the
setInterval that watches for `nextCalled || res.responded`. -/
def CHECK_INTERVAL_MS : Nat := 10

/-- The outcome of one step as the runner records it (composeTimed.ts lines
171-185): the status and error message at the moment the step's promise
resolution is observed, the virtual time at which it resolved (the step's
duration), and the shared response as the next step sees it. -/
structure StepRes where
  status : Status
  errorMsg : Option JSVal
  settledAtMs : Nat
  res : Res

/-- Resolution by the polling loop once the awaited return value has
settled at time `t` (composeTimed.ts lines 161-169): the first interval
tick after `t` resolves if the response was marked responded, otherwise
only the timeout timer (registered first, hence winning ties) ends the
step at `T` with status `timeout`. -/
def afterAwait (st : StepState) (t T : Nat) : StepRes :=
  if st.res.responded then
    if T ≤ t + CHECK_INTERVAL_MS then
      ⟨.timeout, st.errorMsg, T, st.res⟩
    else
      ⟨st.status, st.errorMsg, t + CHECK_INTERVAL_MS, st.res⟩
  else ⟨.timeout, st.errorMsg, T, st.res⟩

/-- One step under the scheduler of runChain (composeTimed.ts lines
121-170) with per-step timeout `T`.  Returns the recorded outcome together
with the mutations that will still hit the shared response after the run
(the body of a promise that settles after the timer fired, and setTimeout
callbacks).

Faithful points of the source this follows:
* a synchronous throw is caught and recorded as `error` at once;
* `next` resolves immediately; mutations later in the same synchronous
  burst (a second `next(err)` call, or a throw after `next`) still land on
  the step's `status`/`errorMsg` locals before the runner reads them;
* a rejected returned promise only sets `status = 'error'` and the message
  in the `.catch` handler - it does not resolve the step, which therefore
  waits for the polling loop or the timeout;
* a handler that neither calls `next`, nor responds, nor returns a promise
  that settles, is ended by the timer with status `timeout`, and nothing
  restores the response: there is no pre-step snapshot in the source. -/
def runStep (spec : HandlerSpec) (T : Nat) (res0 : Res) : StepRes × List ResAct :=
  let st0 : StepState := ⟨.ok, none, false, res0⟩
  let burst0 := runBurst st0 spec.sync
  let st1 := burst0.1
  match burst0.2 with
  | some e =>
      (⟨.error, some (getErrorMessage e), 0, st1.res⟩, spec.deferred)
  | none =>
    if st1.nextCalled then
      -- resolved during the synchronous burst; an async body still runs
      -- later against the shared response, after the run has moved on
      let late := match spec.ret with
        | .promise _ acts => lateWrites acts
        | _ => []
      (⟨st1.status, st1.errorMsg, 0, st1.res⟩, late ++ spec.deferred)
    else
      match spec.ret with
      | .value => (afterAwait st1 0 T, spec.deferred)
      | .pending => (⟨.timeout, st1.errorMsg, T, st1.res⟩, spec.deferred)
      | .promise t acts =>
          if T ≤ t then
            -- the timer fires before the promise settles: the step records
            -- a timeout, but the async body's mutations still write
            -- through to the shared response later
            (⟨.timeout, st1.errorMsg, T, st1.res⟩, lateWrites acts ++ spec.deferred)
          else
            let burstT := runBurst st1 acts
            let st2 := burstT.1
            if st2.nextCalled then
              -- resolve() ran inside the async body; the runner reads the
              -- state at the end of that burst (a rejection afterwards
              -- only mutates the already-recorded locals)
              (⟨st2.status, st2.errorMsg, t, st2.res⟩, spec.deferred)
            else
              match burstT.2 with
              | some e =>
                  (afterAwait ⟨.error, some (getErrorMessage e), st2.nextCalled, st2.res⟩ t T,
                   spec.deferred)
              | none => (afterAwait st2 t T, spec.deferred)

/-- A timeline entry (composeTimed.ts lines 30-38). -/
structure TimelineItem where
  key : String
  name : String
  startedAtMs : Nat
  durationMs : Nat
  status : Status
  error : Option JSVal
  localsPreview : List (String × JSVal)

/-- shallowPreview (composeTimed.ts lines 205-216): non-null objects are
rendered as placeholders (arrays show their length), primitives and `null`
verbatim. -/
def shallowPreview (obj : List (String × JSVal)) : List (String × JSVal) :=
  obj.map fun kv =>
    (kv.1,
      match kv.2 with
      | .arr es => .str ("[Array(" ++ toString es.length ++ ")]")
      | .obj _ => .str "\x7b...\x7d"
      | v => v)

/-- A step descriptor handed to runChain (composeTimed.ts line 41). -/
structure Step where
  key : String
  name : String
  handler : HandlerSpec

/-- finalStatus (composeTimed.ts lines 174-175):
`res.responded && status === 'ok' ? 'short-circuit' : status`. -/
def finalStatusOf (r : StepRes) : Status :=
  if r.res.responded && r.status == .ok then .shortCircuit else r.status

/-- The timeline entry pushed for one step (composeTimed.ts lines 177-185). -/
def mkItem (s : Step) (clock : Nat) (r : StepRes) (fs : Status) : TimelineItem :=
  ⟨s.key, s.name, clock, r.settledAtMs, fs, r.errorMsg, shallowPreview r.res.locals⟩

/-- The step loop of runChain (composeTimed.ts lines 121-191): run each step,
derive its final status, push a timeline entry, and stop as soon as a step's
final status is not `ok`.  Returns the timeline, the shared response at the
moment runChain returns, and the mutations from late callbacks that will
still hit the shared response after the run. -/
def runChainFrom (T : Nat) : List Step → Nat → Res → List TimelineItem × Res × List ResAct
  | [], _, res => ([], res, [])
  | s :: rest, clock, res =>
      let r := (runStep s.handler T res).1
      let late := (runStep s.handler T res).2
      let fs := finalStatusOf r
      let item := mkItem s clock r fs
      if fs = .ok then
        let t := runChainFrom T rest (clock + r.settledAtMs) r.res
        (item :: t.1, t.2.1, late ++ t.2.2)
      else
        ([item], r.res, late)

/-- The final snapshot returned by runChain (composeTimed.ts lines 193-203).
`statusCode`, `responded` and `body` are copies of the values at return
time; in JavaScript the `headers`, `cookies` and `locals` fields alias the
shared response object. -/
structure FinalSnap where
  statusCode : Nat
  headers : List (String × String)
  cookies : List Cookie
  locals : List (String × JSVal)
  responded : Bool
  body : Option JSVal

/-- Snapshot the response state (composeTimed.ts lines 195-202). -/
def snapOf (res : Res) : FinalSnap :=
  ⟨res.statusCode, res.headers, res.cookies, res.locals, res.responded, res.responseBody⟩

/-- RunResult (composeTimed.ts lines 46-60). -/
structure RunResult where
  timeline : List TimelineItem
  final : FinalSnap

/-- runChain (composeTimed.ts lines 100-204) on a chain of step descriptors
with per-step timeout `T`, starting from the fresh response of
createResponse.  The final snapshot is the response state at the moment
runChain returns. -/
def runChain (chain : List Step) (T : Nat) : RunResult :=
  let t := runChainFrom T chain 0 createResponse
  ⟨t.1, snapOf t.2.1⟩

/-- The shared response object after the callbacks still scheduled at
return time have fired.  The JavaScript `final.headers`, `final.cookies`
and `final.locals` alias the fields of this object. -/
def sharedResAfter (chain : List Step) (T : Nat) : Res :=
  let t := runChainFrom T chain 0 createResponse
  applyResActs t.2.1 t.2.2

/-- The logger middleware (registry.ts lines 19-31): appends one line to
`res.locals.logs` and calls `next()`.  The line (built from the request and
the clock) is a parameter. -/
def logger (line : String) : HandlerSpec :=
  ⟨[.act (.appendLog line), .callNext .undefined], .value, []⟩

/-- The respond middleware (registry.ts lines 106-118):
`res.status(Number(status)).json(body)`, intentionally not calling `next`. -/
def respond (status : Nat) (body : JSVal) : HandlerSpec :=
  ⟨[.act (.status status), .act (.json body)], .value, []⟩

/-- The step of the repository's own regression test
"runChain ignores late mutations from prior steps": the first handler calls
`next()` and schedules a 20 ms callback that sets the status code to 500,
the header `x-late` and the local `after`; the second handler sets the
header `x-good` and calls `next()`.  The test then waits 50 ms and asserts
the late mutations are absent from the final result. -/
def lateMutationChain : List Step :=
  [⟨"late", "Late", ⟨[.callNext .undefined], .value,
      [.status 500, .setHeader "x-late" "1", .setLocal "after" (.bool true)]⟩⟩,
   ⟨"next", "Next", ⟨[.act (.setHeader "x-good" "yes"), .callNext .undefined], .value, []⟩⟩]

/-- A handler that mutates the response (header, status code, a local) and
then neither calls `next`, nor responds, nor settles its returned promise:
it is ended by the per-step timer. -/
def pendingMutatorChain : List Step :=
  [⟨"m", "M", ⟨[.act (.setHeader "x-a" "1"), .act (.status 500),
       .act (.setLocal "k" (.num 1))], .pending, []⟩⟩]

/-- A handler that returns a promise rejecting 50 ms in with an Error
carrying the message "boom", and neither calls `next` nor writes a body. -/
def rejectingChain : List Step :=
  [⟨"r", "R", ⟨[], .promise 50 [.throwJS (.obj [("message", .str "boom")])], []⟩⟩]

/-- A handler that calls `next()` and then, still synchronously, calls
`next("boom")` a second time. -/
def doubleNextChain : List Step :=
  [⟨"d", "D", ⟨[.callNext .undefined, .callNext (.str "boom")], .value, []⟩⟩]

/-- A handler that calls its continuation with an Error whose message is
the empty string. -/
def emptyMessageChain : List Step :=
  [⟨"e", "E", ⟨[.callNext (.obj [("message", .str "")])], .value, []⟩⟩]

/-- A handler that calls `next()` synchronously and also returns a promise
that rejects 30 ms later: the step resolves first, the rejection after. -/
def resolvedThenRejectChain : List Step :=
  [⟨"a", "A", ⟨[.callNext .undefined], .promise 30 [.throwJS (.str "late-boom")], []⟩⟩]

/-- The chain of the spec's worked example: the registry's logger followed
by respond(status=201, body=(ok:true)). -/
def loggerRespondChain (line : String) : List Step :=
  [⟨"logger", "Logger", logger line⟩,
   ⟨"respond", "Respond", respond 201 (.obj [("ok", .bool true)])⟩]

/-- A synchronous burst consisting only of response-mutator calls applies
exactly those mutations, raises nothing, and calls `next` never. -/
theorem runBurst_acts : ∀ (acts : List ResAct) (st : StepState),
    runBurst st (acts.map SyncAct.act) =
      ({ st with res := applyResActs st.res acts }, none)
  | [], _ => rfl
  | a :: rest, st => by
      show runBurst { st with res := applyResAct st.res a } (rest.map SyncAct.act) = _
      rw [runBurst_acts rest]
      rfl

/-- Unfolding of the step loop on a non-empty chain. -/
theorem runChainFrom_cons (T : Nat) (s : Step) (rest : List Step) (clock : Nat) (res : Res) :
    runChainFrom T (s :: rest) clock res =
      (if finalStatusOf (runStep s.handler T res).1 = .ok then
        (mkItem s clock (runStep s.handler T res).1 (finalStatusOf (runStep s.handler T res).1)
           :: (runChainFrom T rest (clock + (runStep s.handler T res).1.settledAtMs)
                (runStep s.handler T res).1.res).1,
         (runChainFrom T rest (clock + (runStep s.handler T res).1.settledAtMs)
                (runStep s.handler T res).1.res).2.1,
         (runStep s.handler T res).2 ++
           (runChainFrom T rest (clock + (runStep s.handler T res).1.settledAtMs)
                (runStep s.handler T res).1.res).2.2)
      else
        ([mkItem s clock (runStep s.handler T res).1 (finalStatusOf (runStep s.handler T res).1)],
         (runStep s.handler T res).1.res, (runStep s.handler T res).2)) := rfl

/-- The step loop never produces more timeline entries than there are steps. -/
theorem runChainFrom_length_le (T : Nat) :
    ∀ (chain : List Step) (clock : Nat) (res : Res),
      (runChainFrom T chain clock res).1.length ≤ chain.length
  | [], _, _ => Nat.le_refl 0
  | s :: rest, clock, res => by
      rw [runChainFrom_cons]
      split
      · exact Nat.succ_le_succ (runChainFrom_length_le T rest _ _)
      · exact Nat.succ_le_succ (Nat.zero_le _)

/-- On a non-empty chain the step loop records at least one entry. -/
theorem runChainFrom_length_pos (T : Nat) (s : Step) (rest : List Step) (clock : Nat) (res : Res) :
    1 ≤ (runChainFrom T (s :: rest) clock res).1.length := by
  rw [runChainFrom_cons]
  split
  · exact Nat.succ_le_succ (Nat.zero_le _)
  · exact Nat.le_refl 1

/-- Timeline entries carry the keys and names of the executed prefix of the
chain, in the order the steps were given. -/
theorem runChainFrom_keys (T : Nat) :
    ∀ (chain : List Step) (clock : Nat) (res : Res),
      (runChainFrom T chain clock res).1.map (fun e => (e.key, e.name)) =
        ((chain.take (runChainFrom T chain clock res).1.length).map (fun s => (s.key, s.name)))
  | [], _, _ => rfl
  | s :: rest, clock, res => by
      rw [runChainFrom_cons]
      split
      · simp only [List.map_cons, List.length_cons, List.take_succ_cons]
        rw [runChainFrom_keys T rest]
        rfl
      · rfl

/-- Every timeline entry other than the last has final status `ok`. -/
theorem runChainFrom_ok_before_last (T : Nat) :
    ∀ (chain : List Step) (clock : Nat) (res : Res) (i : Nat) (e : TimelineItem),
      (runChainFrom T chain clock res).1[i]? = some e →
      i + 1 < (runChainFrom T chain clock res).1.length → e.status = .ok
  | [], _, _, _, _ => by intro h _; simp [runChainFrom] at h
  | s :: rest, clock, res, i, e => by
      rw [runChainFrom_cons]
      split
      · rename_i hok
        match i with
        | 0 =>
            intro h _
            rw [List.getElem?_cons_zero] at h
            cases h
            exact hok
        | j + 1 =>
            intro h hlen
            rw [List.getElem?_cons_succ] at h
            exact runChainFrom_ok_before_last T rest _ _ j e h
              (by simpa [Nat.succ_lt_succ_iff] using hlen)
      · intro _ hlen
        simp only [List.length_cons, List.length_nil] at hlen
        omega

/-- The step loop stops at the first entry whose final status is not `ok`:
such an entry is the last one. -/
theorem runChainFrom_stop (T : Nat) :
    ∀ (chain : List Step) (clock : Nat) (res : Res) (i : Nat) (e : TimelineItem),
      (runChainFrom T chain clock res).1[i]? = some e → e.status ≠ .ok →
      (runChainFrom T chain clock res).1.length = i + 1
  | [], _, _, _, _ => by intro h _; simp [runChainFrom] at h
  | s :: rest, clock, res, i, e => by
      rw [runChainFrom_cons]
      split
      · rename_i hok
        match i with
        | 0 =>
            intro h hne
            rw [List.getElem?_cons_zero] at h
            cases h
            exact absurd hok hne
        | j + 1 =>
            intro h hne
            rw [List.getElem?_cons_succ] at h
            simp only [List.length_cons, runChainFrom_stop T rest _ _ j e h hne]
      · intro h _
        match i with
        | 0 => rfl
        | j + 1 => simp at h

/-- A synchronous throw is caught at once: status `error` with the thrown
value's message, the remaining synchronous calls never run, and the step
resolves immediately. -/
theorem runStep_throw (e : JSVal) (pre : List SyncAct) (ret : HandlerRet)
    (d : List ResAct) (T : Nat) (res : Res) :
    runStep ⟨SyncAct.throwJS e :: pre, ret, d⟩ T res =
      (⟨.error, some (getErrorMessage e), 0, res⟩, d) := rfl

/-- A single synchronous continuation call resolves the step immediately;
a truthy argument records an error, a falsy one does not. -/
theorem runStep_callNext (err : JSVal) (T : Nat) (res : Res) :
    runStep ⟨[.callNext err], .value, []⟩ T res =
      (⟨if truthy err then .error else .ok,
        if truthy err then some (getErrorMessage err) else none, 0, res⟩, []) := by
  cases h : truthy err <;> simp [runStep, runBurst, h]

/-- Two synchronous continuation calls, the second with a truthy error: the
source `next` has no single-use guard, so the second call overwrites the
recorded status and message before the runner reads them. -/
theorem runStep_doubleNext (err : JSVal) (h : truthy err = true) (T : Nat) (res : Res) :
    runStep ⟨[.callNext .undefined, .callNext err], .value, []⟩ T res =
      (⟨.error, some (getErrorMessage err), 0, res⟩, []) := by
  have h0 : truthy JSVal.undefined = false := rfl
  simp [runStep, runBurst, h0, h]

/-- A handler whose returned promise rejects before the timer fires, with
no continuation call and no body write: the `.catch` handler records the
message but does not resolve the step, so the timer ends it at `T` with
status `timeout`. -/
theorem runStep_reject (t T : Nat) (h : t < T) (e : JSVal) (res : Res)
    (hres : res.responded = false) :
    runStep ⟨[], .promise t [.throwJS e], []⟩ T res =
      (⟨.timeout, some (getErrorMessage e), T, res⟩, []) := by
  simp [runStep, runBurst, afterAwait, Nat.not_le_of_lt h, hres]

/-- C1 counterexample: a step that sets a header, the status code and a
local, then times out (status `timeout`), and the final RunResult still
shows all three mutations: nothing was rolled back to the pre-step
snapshot.  The claim asserts those mutations are not visible in the final
RunResult; here statusCode is 500 (not the pre-step 200) and both the
header and the local are present. -/
theorem c1_counterexample :
    ((runChain pendingMutatorChain 2000).timeline.map (fun e => e.status) = [Status.timeout]) ∧
    (runChain pendingMutatorChain 2000).final.statusCode = 500 ∧
    (runChain pendingMutatorChain 2000).final.statusCode ≠ 200 ∧
    getKV (runChain pendingMutatorChain 2000).final.headers "x-a" = some "1" ∧
    getKV (runChain pendingMutatorChain 2000).final.locals "k" = some (.num 1) :=
  ⟨rfl, rfl, by decide, by decide, by rfl⟩

/-- C1 amended: when a step's resolution is `timeout`, the chain stops and
the response mutations the step made are kept, not rolled back: the final
snapshot is exactly the pre-step response with the step's mutations
applied.  (The source takes no pre-step snapshot and restores nothing.) -/
theorem c1_no_rollback (acts : List ResAct) (k n : String) (T : Nat) :
    ((runChain [⟨k, n, ⟨acts.map SyncAct.act, .pending, []⟩⟩] T).timeline.map (fun e => e.status)
        = [Status.timeout]) ∧
    (runChain [⟨k, n, ⟨acts.map SyncAct.act, .pending, []⟩⟩] T).final
        = snapOf (applyResActs createResponse acts) := by
  have hs : runStep ⟨acts.map SyncAct.act, .pending, []⟩ T createResponse =
      (⟨.timeout, none, T, applyResActs createResponse acts⟩, []) := by
    simp [runStep, runBurst_acts]
  constructor <;>
    simp [runChain, runChainFrom_cons, hs, finalStatusOf, mkItem, runChainFrom, snapOf]

/-- C2: on the chain of the repository's own late-mutation test, both steps
complete `ok`, yet the deferred callback of the already-deactivated first
step still lands its writes on the shared response object that the
returned `final.headers` / `final.locals` alias: after the callback fires,
`x-late` is "1" and the local `after` is true (the repository's test
asserts both absent, and fails on this source).  Only the by-value copy
`final.statusCode` keeps 200. -/
theorem c2_late_writes_land :
    ((runChain lateMutationChain 2000).timeline.map (fun e => e.status)
        = [Status.ok, Status.ok]) ∧
    (runChain lateMutationChain 2000).final.statusCode = 200 ∧
    getKV (sharedResAfter lateMutationChain 2000).headers "x-good" = some "yes" ∧
    getKV (sharedResAfter lateMutationChain 2000).headers "x-late" = some "1" ∧
    getKV (sharedResAfter lateMutationChain 2000).locals "after" = some (.bool true) ∧
    (sharedResAfter lateMutationChain 2000).statusCode = 500 :=
  ⟨rfl, rfl, by decide, by decide, by rfl, rfl⟩

/-- C3 counterexample: a handler whose promise rejects 50 ms in (and that
neither calls its continuation nor writes a body) is recorded with status
`timeout` after the full 2000 ms budget, not with status `error` upon
rejection as the claim states. -/
theorem c3_counterexample :
    ((runChain rejectingChain 2000).timeline.map (fun i => (i.status, i.durationMs))
        = [(Status.timeout, 2000)]) ∧
    ¬ ((runChain rejectingChain 2000).timeline.map (fun i => i.status) = [Status.error]) :=
  ⟨rfl, by decide⟩

/-- C3 amended: for a step whose handler returns a promise rejecting at
time `t < T` and that neither calls its continuation nor writes a body,
the rejection message is extracted and recorded, but the step is
classified `timeout` when the budget `T` elapses (the rejection handler
does not resolve the step), and the chain stops there. -/
theorem c3_rejection_times_out (t T : Nat) (h : t < T) (e : JSVal) (k n : String)
    (rest : List Step) :
    (runChain (⟨k, n, ⟨[], .promise t [.throwJS e], []⟩⟩ :: rest) T).timeline.map
        (fun i => (i.status, i.error, i.durationMs))
      = [(Status.timeout, some (getErrorMessage e), T)] := by
  have hs := runStep_reject t T h e createResponse rfl
  simp [runChain, runChainFrom_cons, hs, finalStatusOf, mkItem]

/-- Witness for C3 amended at t = 50, T = 2000, an Error with message
"boom" and an empty tail. -/
theorem c3_rejection_times_out_witness :
    (runChain rejectingChain 2000).timeline.map (fun i => (i.status, i.error, i.durationMs))
      = [(Status.timeout, some (getErrorMessage (.obj [("message", .str "boom")])), 2000)] :=
  c3_rejection_times_out 50 2000 (by decide) (.obj [("message", .str "boom")]) "r" "R" []

/-- C4: for every chain, the timeline is at most as long as the chain, its
entries carry the steps' keys and names in the exact order given, every
entry except possibly the last has final status `ok`, and in particular
when the timeline is as long as the chain every entry except possibly the
last is `ok`. -/
theorem c4_timeline_shape (chain : List Step) (T : Nat) :
    ((runChain chain T).timeline.length ≤ chain.length) ∧
    ((runChain chain T).timeline.map (fun e => (e.key, e.name)) =
      (chain.take (runChain chain T).timeline.length).map (fun s => (s.key, s.name))) ∧
    (∀ i e, (runChain chain T).timeline[i]? = some e →
        i + 1 < (runChain chain T).timeline.length → e.status = .ok) ∧
    ((runChain chain T).timeline.length = chain.length →
      ∀ i e, (runChain chain T).timeline[i]? = some e →
        i + 1 < (runChain chain T).timeline.length → e.status = .ok) :=
  ⟨runChainFrom_length_le T chain 0 createResponse,
   runChainFrom_keys T chain 0 createResponse,
   fun i e h1 h2 => runChainFrom_ok_before_last T chain 0 createResponse i e h1 h2,
   fun _ i e h1 h2 => runChainFrom_ok_before_last T chain 0 createResponse i e h1 h2⟩

/-- Witness for C4 on the logger/respond chain: length bound, exact key
order, and the non-last entry's `ok` status instantiated at index 0. -/
theorem c4_timeline_shape_witness :
    ((runChain (loggerRespondChain "L") 2000).timeline.length ≤ 2) ∧
    ((runChain (loggerRespondChain "L") 2000).timeline.map (fun e => (e.key, e.name)) =
      [("logger", "Logger"), ("respond", "Respond")]) ∧
    Status.ok = Status.ok :=
  ⟨(c4_timeline_shape (loggerRespondChain "L") 2000).1,
   by
     have h := (c4_timeline_shape (loggerRespondChain "L") 2000).2.1
     simpa using h,
   (c4_timeline_shape (loggerRespondChain "L") 2000).2.2.1 0
     ⟨"logger", "Logger", 0, 0, .ok, none, [("logs", .str "[Array(1)]")]⟩
     (by rfl) (by decide) ▸ rfl⟩

/-- C5 counterexample: after `next()` has resolved the step, a synchronous
second call `next("boom")` does change the recorded outcome: the entry is
`error` with message "boom", not `ok` - the source `next` has no
single-use guard. -/
theorem c5_counterexample :
    ((runChain doubleNextChain 2000).timeline.map (fun i => (i.status, i.error))
        = [(Status.error, some (.str "boom"))]) ∧
    ¬ ((runChain doubleNextChain 2000).timeline.map (fun i => i.status) = [Status.ok]) :=
  ⟨rfl, by decide⟩

/-- C5 amended: resolution timing is first-wins, but the continuation is
not single-use for the recorded outcome: a second synchronous call to
`done` with a truthy error value overwrites the step's recorded status
to `error` and installs that error's message, because the runner only
reads the step's locals after the synchronous burst has finished. -/
theorem c5_second_call_overwrites (err : JSVal) (h : truthy err = true) (k n : String)
    (T : Nat) :
    (runChain [⟨k, n, ⟨[.callNext .undefined, .callNext err], .value, []⟩⟩] T).timeline.map
        (fun i => (i.status, i.error))
      = [(Status.error, some (getErrorMessage err))] := by
  have hs := runStep_doubleNext err h T createResponse
  simp [runChain, runChainFrom_cons, hs, finalStatusOf, mkItem]

/-- Witness for C5 amended at the string error "boom". -/
theorem c5_second_call_overwrites_witness :
    (runChain doubleNextChain 2000).timeline.map (fun i => (i.status, i.error))
      = [(Status.error, some (getErrorMessage (.str "boom")))] :=
  c5_second_call_overwrites (.str "boom") (by decide) "d" "D" 2000

/-- C6 counterexample: on the empty chain the timeline is empty, so its
length is 0, not at least 1 as the claim states. -/
theorem c6_counterexample : ¬ (1 ≤ (runChain [] 2000).timeline.length) := by decide

/-- C6 amended: the timeline length is at most the chain length, it is at
least 1 whenever the chain is non-empty (on the empty chain it is 0), and
execution stops at the first non-`ok` entry: such an entry is the last. -/
theorem c6_timeline_bounds (chain : List Step) (T : Nat) :
    ((runChain chain T).timeline.length ≤ chain.length) ∧
    (chain ≠ [] → 1 ≤ (runChain chain T).timeline.length) ∧
    (∀ i e, (runChain chain T).timeline[i]? = some e → e.status ≠ .ok →
        (runChain chain T).timeline.length = i + 1) := by
  refine ⟨runChainFrom_length_le T chain 0 createResponse, ?_,
    fun i e h1 h2 => runChainFrom_stop T chain 0 createResponse i e h1 h2⟩
  intro hne
  match chain with
  | [] => exact absurd rfl hne
  | s :: rest => exact runChainFrom_length_pos T s rest 0 createResponse

/-- Witness for C6 amended on a one-step chain whose entry is non-`ok`:
bounds and the stop property instantiated at index 0. -/
theorem c6_timeline_bounds_witness :
    ((runChain doubleNextChain 2000).timeline.length ≤ 1) ∧
    (1 ≤ (runChain doubleNextChain 2000).timeline.length) ∧
    ((runChain doubleNextChain 2000).timeline.length = 0 + 1) :=
  ⟨(c6_timeline_bounds doubleNextChain 2000).1,
   (c6_timeline_bounds doubleNextChain 2000).2.1 (by simp [doubleNextChain]),
   (c6_timeline_bounds doubleNextChain 2000).2.2 0
     ⟨"d", "D", 0, 0, .error, some (.str "boom"), []⟩ (by rfl) (by decide)⟩

/-- C7 counterexample: a continuation called with an Error whose message is
the empty string records the fallback message "Error", not the original
empty message verbatim as the claim states. -/
theorem c7_counterexample :
    ((runChain emptyMessageChain 2000).timeline.map (fun i => (i.status, i.error))
        = [(Status.error, some (.str "Error"))]) ∧
    ¬ ((runChain emptyMessageChain 2000).timeline.map (fun i => i.error)
        = [some (.str "")]) := by
  constructor
  · rfl
  · intro h
    have h0 : (runChain emptyMessageChain 2000).timeline.map (fun i => i.error)
        = [some (JSVal.str "Error")] := rfl
    have h12 := h0.symm.trans h
    injection h12 with ha _
    injection ha with hc
    injection hc with hd
    exact absurd hd (by decide)

/-- C7 amended: a continuation called with a truthy error value records
status `error` with message `getErrorMessage err` and no later step
executes; the message is verbatim for string errors (a falsy value such as
the empty string is treated as success instead) and for Error-like objects
with a non-empty string message, and otherwise falls back to "Error". -/
theorem c7_error_capture (err : JSVal) (h : truthy err = true) (k n : String) (T : Nat)
    (rest : List Step) :
    ((runChain (⟨k, n, ⟨[.callNext err], .value, []⟩⟩ :: rest) T).timeline.map
        (fun i => (i.status, i.error)) = [(Status.error, some (getErrorMessage err))]) ∧
    (∀ s : String, getErrorMessage (.str s) = .str s) ∧
    (∀ m : String, m ≠ "" → getErrorMessage (.obj [("message", .str m)]) = .str m) := by
  refine ⟨?_, fun s => rfl, fun m hm => ?_⟩
  · have hs := runStep_callNext err T createResponse
    simp only [h, if_true] at hs
    simp [runChain, runChainFrom_cons, hs, finalStatusOf, mkItem]
  · simp [getErrorMessage, jsMessage, getKV, truthy, hm]

/-- Witness for C7 amended at the string error "denied" and the Error
message "boom". -/
theorem c7_error_capture_witness :
    ((runChain [⟨"s", "S", ⟨[.callNext (.str "denied")], .value, []⟩⟩] 2000).timeline.map
        (fun i => (i.status, i.error)) = [(Status.error, some (getErrorMessage (.str "denied")))]) ∧
    getErrorMessage (.str "denied") = .str "denied" ∧
    getErrorMessage (.obj [("message", .str "boom")]) = .str "boom" :=
  ⟨(c7_error_capture (.str "denied") (by decide) "s" "S" 2000 []).1,
   (c7_error_capture (.str "denied") (by decide) "s" "S" 2000 []).2.1 "denied",
   (c7_error_capture (.str "denied") (by decide) "s" "S" 2000 []).2.2 "boom" (by decide)⟩

/-- C8: on the chain [logger, respond(status=201, body=(ok:true))] built
from the registry, the timeline is [`ok`, `short-circuit`] (the scheduler's
`ok` for the respond step is reclassified because the response is marked
responded), and the final snapshot has statusCode 201 and body (ok:true),
for every log line the logger writes. -/
theorem c8_logger_respond (line : String) :
    ((runChain (loggerRespondChain line) 2000).timeline.map (fun e => e.status)
        = [Status.ok, Status.shortCircuit]) ∧
    (runChain (loggerRespondChain line) 2000).final.statusCode = 201 ∧
    (runChain (loggerRespondChain line) 2000).final.body
        = some (.obj [("ok", .bool true)]) ∧
    (runChain (loggerRespondChain line) 2000).final.responded = true :=
  ⟨rfl, rfl, rfl, rfl⟩

/-- C9 counterexample: a handler that calls `next()` synchronously and
whose returned promise then rejects produces a timeline whose only entry is
`ok` with no error message: the rejection (an in-chain handler failure) is
swallowed without being captured as a Timeline Entry status, contrary to
the claim.  (runChain still returns normally: the failure does not escape.) -/
theorem c9_counterexample :
    ((runChain resolvedThenRejectChain 2000).timeline.map (fun i => (i.status, i.error))
        = [(Status.ok, none)]) ∧
    ¬ ((runChain resolvedThenRejectChain 2000).timeline.map (fun i => i.status)
        = [Status.error]) :=
  ⟨rfl, by decide⟩

/-- C9 amended: runChain is total on every chain of handler behaviours (the
embedding returns a RunResult for all inputs, so no in-chain failure
escapes), and a failure that occurs before the step resolves is captured in
the timeline: a synchronous throw and a truthy continuation error are
recorded as `error` with the extracted message, and a pre-timeout rejection
without continuation or body write is recorded as `timeout` with the
extracted message; in each case the chain stops there.  A rejection
occurring after the step has already resolved is swallowed silently. -/
theorem c9_failures_as_data (T t : Nat) (e errv : JSVal) (ht : t < T)
    (he : truthy errv = true) (k n : String) (rest : List Step) :
    ((runChain (⟨k, n, ⟨[.throwJS e], .value, []⟩⟩ :: rest) T).timeline.map
        (fun i => (i.status, i.error)) = [(Status.error, some (getErrorMessage e))]) ∧
    ((runChain (⟨k, n, ⟨[.callNext errv], .value, []⟩⟩ :: rest) T).timeline.map
        (fun i => (i.status, i.error)) = [(Status.error, some (getErrorMessage errv))]) ∧
    ((runChain (⟨k, n, ⟨[], .promise t [.throwJS e], []⟩⟩ :: rest) T).timeline.map
        (fun i => (i.status, i.error)) = [(Status.timeout, some (getErrorMessage e))]) := by
  refine ⟨?_, ?_, ?_⟩
  · have hs := runStep_throw e [] .value [] T createResponse
    simp [runChain, runChainFrom_cons, hs, finalStatusOf, mkItem]
  · have hs := runStep_callNext errv T createResponse
    simp only [he, if_true] at hs
    simp [runChain, runChainFrom_cons, hs, finalStatusOf, mkItem]
  · have hs := runStep_reject t T ht e createResponse rfl
    simp [runChain, runChainFrom_cons, hs, finalStatusOf, mkItem]

/-- Witness for C9 amended: the three capture modes at concrete errors. -/
theorem c9_failures_as_data_witness :
    ((runChain [⟨"t", "T", ⟨[.throwJS (.str "thrown")], .value, []⟩⟩] 2000).timeline.map
        (fun i => (i.status, i.error)) = [(Status.error, some (getErrorMessage (.str "thrown")))]) ∧
    ((runChain [⟨"t", "T", ⟨[.callNext (.str "err")], .value, []⟩⟩] 2000).timeline.map
        (fun i => (i.status, i.error)) = [(Status.error, some (getErrorMessage (.str "err")))]) ∧
    ((runChain [⟨"t", "T", ⟨[], .promise 30 [.throwJS (.str "rej")], []⟩⟩] 2000).timeline.map
        (fun i => (i.status, i.error)) = [(Status.timeout, some (getErrorMessage (.str "rej")))]) :=
  ⟨(c9_failures_as_data 2000 30 (.str "thrown") (.str "err") (by decide) (by decide) "t" "T" []).1,
   (c9_failures_as_data 2000 30 (.str "err") (.str "err") (by decide) (by decide) "t" "T" []).2.1,
   (c9_failures_as_data 2000 30 (.str "rej") (.str "err") (by decide) (by decide) "t" "T" []).2.2⟩

/-- C10: a continuation called with a falsy value is success: the entry is
`ok` and the chain continues with the remaining steps from the unchanged
response; only a truthy argument records `error` (and stops the chain);
and with a body write before the falsy continuation call the `ok` is
reclassified to `short-circuit`. -/
theorem c10_falsy_continue (err : JSVal) (h : truthy err = false) (k n : String) (T : Nat)
    (rest : List Step) :
    ((runChain (⟨k, n, ⟨[.callNext err], .value, []⟩⟩ :: rest) T).timeline.map
        (fun i => i.status)
      = .ok :: (runChainFrom T rest 0 createResponse).1.map (fun i => i.status)) ∧
    ((runChain (⟨k, n, ⟨[.callNext err], .value, []⟩⟩ :: rest) T).timeline.length
      = 1 + (runChainFrom T rest 0 createResponse).1.length) ∧
    (∀ err2 : JSVal, truthy err2 = true →
      (runChain (⟨k, n, ⟨[.callNext err2], .value, []⟩⟩ :: rest) T).timeline.map
          (fun i => i.status) = [Status.error]) ∧
    ((runChain (⟨k, n, ⟨[.act (.json (.bool true)), .callNext err], .value, []⟩⟩ :: rest) T).timeline.map
        (fun i => i.status) = [Status.shortCircuit]) := by
  have hs := runStep_callNext err T createResponse
  rw [h] at hs
  simp at hs
  have hcr : createResponse.responded = false := rfl
  refine ⟨?_, ?_, ?_, ?_⟩
  · simp [runChain, runChainFrom_cons, hs, finalStatusOf, mkItem, hcr]
  · simp [runChain, runChainFrom_cons, hs, finalStatusOf, mkItem, hcr, Nat.add_comm]
  · intro err2 h2
    have hs2 := runStep_callNext err2 T createResponse
    simp only [h2, if_true] at hs2
    simp [runChain, runChainFrom_cons, hs2, finalStatusOf, mkItem]
  · have hs3 : runStep ⟨[.act (.json (.bool true)), .callNext err], .value, []⟩ T createResponse =
        (⟨.ok, none, 0,
          { locals := [], statusCode := 200,
            headers := [("content-type", "application/json")], cookies := [],
            responded := true, responseBody := some (.bool true) }⟩, []) := by
      simp [runStep, runBurst, h, applyResAct, createResponse, setKV, lowerStr]
    simp [runChain, runChainFrom_cons, hs3, finalStatusOf, mkItem]

/-- Witness for C10 at the falsy value 0 and the truthy string "x". -/
theorem c10_falsy_continue_witness :
    ((runChain [⟨"f", "F", ⟨[.callNext (.num 0)], .value, []⟩⟩] 2000).timeline.map
        (fun i => i.status) = [Status.ok]) ∧
    ((runChain [⟨"f", "F", ⟨[.callNext (.str "x")], .value, []⟩⟩] 2000).timeline.map
        (fun i => i.status) = [Status.error]) := by
  constructor
  · have h := (c10_falsy_continue (.num 0) (by decide) "f" "F" 2000 []).1
    simpa [runChainFrom] using h
  · exact (c10_falsy_continue (.num 0) (by decide) "f" "F" 2000 []).2.2.1 (.str "x") (by decide)
